import Mathlib

/-!
Verification of the trackio-mcp package against its design specification.

The development shallowly embeds the three source modules:
trackio_mcp/monkey_patch.py (patch controller and lazy import hook),
trackio_mcp/tools.py (read-only query surface returning JSON envelopes),
and trackio_mcp/cli.py (command-line dispatch and exit codes).
External collaborators (the gradio module, the SQLite storage backend,
the trackio UI helpers, pandas, the Python runtime) appear as explicit
parameters, so that every function of the repository itself is a total,
executable Lean definition mirroring the Python control flow.
-/

set_option autoImplicit false

namespace TrackioMcp

/-! ## Python values and keyword-argument dictionaries -/

/-- A Python value as far as this code base inspects one: booleans, strings,
integers and None.  Only truthiness and equality of these values matter to
the patched launch wrapper. -/
inductive PyVal where
  | bool (b : Bool)
  | str (s : String)
  | int (n : Int)
  | pyNone
deriving DecidableEq

/-- Python truthiness for the values above: False, the empty string, 0 and
None are falsy, everything else is truthy. -/
def PyVal.truthy : PyVal → Bool
  | .bool b => b
  | .str s => !(s = "")
  | .int n => !(n = 0)
  | .pyNone => false

/-- A kwargs dictionary, modelled as an association list with the usual
first-occurrence lookup; keys stay unique because insertion only appends
absent keys. -/
abbrev Kwargs := List (String × PyVal)

/-- Model of kwargs key lookup. -/
def kwGet (kw : Kwargs) (k : String) : Option PyVal :=
  kw.lookup k

/-- Model of kwargs.get with a fallback value. -/
def kwGetD (kw : Kwargs) (k : String) (d : PyVal) : PyVal :=
  (kwGet kw k).getD d

/-- Model of kwargs.setdefault: insert v under k only when k is absent
(Python inserts new keys at the end of the dict). -/
def kwSet (kw : Kwargs) (k : String) (v : PyVal) : Kwargs :=
  if (kwGet kw k).isSome then kw else kw ++ [(k, v)]

/-! ## monkey_patch.py: the patch controller -/

/-- The identity of a launch method: either some base callable of the host
library, or a wrapper built around a saved inner method. -/
inductive LaunchImpl where
  | base (id : Nat)
  | wrapped (inner : LaunchImpl)
deriving DecidableEq

/-- The state touched by the gradio patch routine: the method table of
gr.Blocks (the launch slot and the optional saved-original slot), the
process-wide patched flag, and a ghost counter recording how many times the
method table has actually been mutated. -/
structure GradioState where
  launch : LaunchImpl
  original_launch : Option LaunchImpl
  gradio_patched : Bool
  mutations : Nat
deriving DecidableEq

/-- A freshly imported gradio module: unpatched launch, no saved-original
attribute, patched flag still false. -/
def freshGradio (id : Nat) : GradioState :=
  { launch := .base id, original_launch := none, gradio_patched := false, mutations := 0 }

/-- Model of the gradio patch routine (monkey_patch.py lines 74 to 113):
under the lock, return immediately when the patched flag is set or Blocks
already carries the saved-original attribute; otherwise save the current
launch, install the wrapper, and set the flag.  The lock serialises
callers, so the embedded function is the body executed by each serialised
caller in turn. -/
def patchGradioLaunch (s : GradioState) : GradioState :=
  if s.gradio_patched || s.original_launch.isSome then s
  else
    { launch := .wrapped s.launch
      original_launch := some s.launch
      gradio_patched := true
      mutations := s.mutations + 1 }

/-! ## monkey_patch.py: the patched launch wrapper -/

/-- The self object of a launch call, as far as the wrapper inspects it:
the local_url attribute (none models the attribute being absent, so the
hasattr test fails). -/
structure BlocksSelf where
  local_url : Option String
deriving DecidableEq

/-- Truthiness of self.local_url combined with the hasattr guard. -/
def hasLocalUrl : Option String → Bool
  | some u => !(u = "")
  | none => false

/-- Model of str.rstrip applied to the slash character: remove every
trailing slash. -/
def rstripSlash (s : String) : String :=
  String.mk ((s.data.reverse.dropWhile fun c => c = '/').reverse)

/-- Everything observable about one call of the patched wrapper: the
positional arguments and keyword arguments handed to the saved original,
whether the TRACKIO_MCP_ENABLED marker was set, the informational lines
printed, and whether the exception of the original call propagated. -/
structure LaunchCall where
  argsPassed : List PyVal
  kwargsPassed : Kwargs
  envMarkerSet : Bool
  printed : List String
  raised : Bool
deriving DecidableEq

/-- Model of the patched launch wrapper (monkey_patch.py lines 85 to 107):
inject the two defaults, record the marker when the effective mcp_server
value is truthy, delegate to the saved original, and on a successful return
print the two MCP URLs when the feature is on, the call is not quiet, and
self.local_url is a non-empty string.  The flag origOk is whether the
delegated original call returns normally; when it raises, the exception
propagates unchanged and nothing is printed. -/
def patched_blocks_launch (self : BlocksSelf) (args : List PyVal) (kwargs : Kwargs)
    (origOk : Bool) : LaunchCall :=
  let kw1 := kwSet kwargs "mcp_server" (.bool true)
  let kw2 := kwSet kw1 "show_api" (.bool true)
  let marker := (kwGetD kw2 "mcp_server" (.bool false)).truthy
  if origOk then
    let printed :=
      if (kwGetD kw2 "mcp_server" (.bool false)).truthy
          && !(kwGetD kw2 "quiet" (.bool false)).truthy
          && hasLocalUrl self.local_url then
        match self.local_url with
        | some u =>
            ["MCP Server: " ++ rstripSlash u ++ "/gradio_api/mcp/sse",
             "MCP Schema: " ++ rstripSlash u ++ "/gradio_api/mcp/schema"]
        | none => []
      else []
    { argsPassed := args, kwargsPassed := kw2, envMarkerSet := marker
      printed := printed, raised := false }
  else
    { argsPassed := args, kwargsPassed := kw2, envMarkerSet := marker
      printed := [], raised := true }

/-! ## monkey_patch.py: patch_trackio and the import hook -/

/-- The process-wide state touched by the activation entry point and the
hook installer: the gradio patch state, the saved original import primitive
(none when the hook is not installed), and the TRACKIO_MCP_ENABLED
environment marker. -/
structure ProcState where
  gradio : GradioState
  original_import : Option Nat
  env_TRACKIO_MCP_ENABLED : Option String
deriving DecidableEq

/-- Model of str.lower, mapping each character to lower case. -/
def pyLower (s : String) : String :=
  String.mk (s.data.map Char.toLower)

/-- Truthiness test used by the activation entry point (line 21): the
lowercased value must be one of the three truthy strings. -/
def truthyEnable (v : String) : Bool :=
  pyLower v = "true" || pyLower v = "1" || pyLower v = "yes"

/-- Model of the hook installer (lines 36 to 71) at the state level: save
the builtin import primitive once; a second installation is a no-op. -/
def installImportHook (builtinImport : Nat) (s : ProcState) : ProcState :=
  if s.original_import.isSome then s
  else { s with original_import := some builtinImport }

/-- Model of the activation entry point patch_trackio (monkey_patch.py
lines 17 to 33): read TRACKIO_ENABLE_MCP with the default string true;
when falsy, return without any effect; when truthy, install the import
hook and, if gradio is already importable, patch it immediately. -/
def patch_trackio (envEnableMcp : Option String) (gradioAvailable : Bool)
    (builtinImport : Nat) (s : ProcState) : ProcState :=
  if truthyEnable (envEnableMcp.getD "true") then
    let s1 := installImportHook builtinImport s
    if gradioAvailable then { s1 with gradio := patchGradioLaunch s1.gradio } else s1
  else s

/-- The exception classes this code distinguishes: the two caught by the
narrow except clauses, and every other class. -/
inductive PyExc where
  | importError
  | attributeError
  | other (tag : Nat)
deriving DecidableEq

/-- Model of the narrow except clause around a patch attempt: ImportError
and AttributeError are swallowed, any other exception escapes. -/
def catchImpAttr : Except PyExc Unit → Except PyExc Unit
  | .error .importError => .ok ()
  | .error .attributeError => .ok ()
  | e => e

/-- Model of the hooked import (monkey_patch.py lines 49 to 65): delegate
to the saved original import primitive first; on its successful return,
attempt the gradio patch when the name matches (swallowing ImportError and
AttributeError), then the trackio-UI patch when that name matches (its body
swallows the same two classes internally), and finally return the result of
the original primitive.  Here origImport is the saved original primitive,
sysModules the contents of sys.modules, and the two attempt parameters are
the outcomes of the respective patch bodies. -/
def patched_import (origImport : String → Except PyExc Nat) (sysModules : List String)
    (gradioAttempt uiAttempt : Except PyExc Unit) (name : String) : Except PyExc Nat :=
  match origImport name with
  | .error e => .error e
  | .ok result =>
    match (if name = "gradio" || (name.startsWith "gradio." && sysModules.contains "gradio")
           then catchImpAttr gradioAttempt else .ok ()) with
    | .error e => .error e
    | .ok _ =>
      match (if name.startsWith "trackio" && sysModules.contains "trackio.ui"
             then catchImpAttr uiAttempt else .ok ()) with
      | .error e => .error e
      | .ok _ => .ok result

/-! ## tools.py: JSON values and the storage environment -/

/-- A value inside one metric record, as the summary code distinguishes
them: numbers and everything else (kept as strings). -/
inductive MetricVal where
  | num (n : Int)
  | str (s : String)
deriving DecidableEq

/-- One metric record: a dictionary from column names to values. -/
abbrev Metric := List (String × MetricVal)

/-- A JSON value, the shape of every envelope returned by the query
surface. -/
inductive JVal where
  | jbool (b : Bool)
  | jstr (s : String)
  | jnum (n : Int)
  | jarr (xs : List JVal)
  | jobj (fields : List (String × JVal))
  | jnull

/-- Conversion of a list of strings to a JSON array. -/
def jstrArr (xs : List String) : JVal :=
  .jarr (xs.map .jstr)

/-- Conversion of a metric value to JSON. -/
def MetricVal.toJ : MetricVal → JVal
  | .num n => .jnum n
  | .str s => .jstr s

/-- Conversion of a metric record to a JSON object. -/
def metricToJ (m : Metric) : JVal :=
  .jobj (m.map fun p => (p.1, p.2.toJ))

/-- The external collaborators of tools.py, as explicit data: the three
SQLiteStorage lookup methods (each may raise, modelled by Except with the
exception message as the error), the traceback formatter of the Python
runtime, the two optional trackio UI helpers behind hasattr checks, the
JSON parser used on the runs parameter (none models a decode error), and
the pandas numeric-column selection used by the fallback paths. -/
structure StorageEnv where
  get_projects : Except String (List String)
  get_runs : String → Except String (List String)
  get_metrics : String → String → Except String (List Metric)
  format_exc : String → String
  ui_available_metrics : Option (String → List String → Except String (List String))
  ui_load_run_data : Option (String → String → Bool → String → Except String (Option (List Metric)))
  json_loads_list : String → Option (List String)
  pd_numeric_cols : List Metric → List String

/-- One invocation of a lookup method of the storage collaborator. -/
inductive SCall where
  | getProjects
  | getRuns (project : String)
  | getMetrics (project run : String)
deriving DecidableEq

/-- The envelope produced by the except handlers of the query functions:
success false, the exception message, and the formatted traceback. -/
def errEnvelope (env : StorageEnv) (msg : String) : JVal :=
  .jobj [("success", .jbool false), ("error", .jstr msg),
         ("traceback", .jstr (env.format_exc msg))]

/-- The envelope produced by the in-line validation returns: success false
and the message, without a traceback field. -/
def plainError (msg : String) : JVal :=
  .jobj [("success", .jbool false), ("error", .jstr msg)]

/-- Whether the first character list is a prefix of the second. -/
def prefixOf : List Char → List Char → Bool
  | [], _ => true
  | _ :: _, [] => false
  | a :: as, b :: bs => a = b && prefixOf as bs

/-- Whether the first character list occurs inside the second. -/
def containsSub : List Char → List Char → Bool
  | needle, [] => needle.isEmpty
  | needle, c :: rest => prefixOf needle (c :: rest) || containsSub needle rest

/-- Python substring membership on strings. -/
def pyInStr (needle hay : String) : Bool :=
  containsSub needle.data hay.data

/-- Sorted list of the distinct elements, modelling sorted(list(s)) for a
set s accumulated by update calls. -/
def pySortedSet (xs : List String) : List String :=
  (xs.dedup).insertionSort (· ≤ ·)

/-- The filter applied to the pandas numeric columns in the fallback paths:
drop the step and timestamp columns. -/
def numericColsOf (env : StorageEnv) (metrics : List Metric) : List String :=
  (env.pd_numeric_cols metrics).filter fun c => !(c = "step") && !(c = "timestamp")

/-! ## tools.py: the query functions

Each query function returns the JSON envelope it produces together with the
list of storage lookup calls it performed, in order.  Totality of these
definitions is the never-raises half of the error-handling contract. -/

/-- Model of get_projects (tools.py lines 36 to 50). -/
def get_projects (env : StorageEnv) : JVal × List SCall :=
  match env.get_projects with
  | .error e => (errEnvelope env e, [.getProjects])
  | .ok projects =>
      (.jobj [("success", .jbool true), ("projects", jstrArr projects),
              ("count", .jnum projects.length)], [.getProjects])

/-- Model of get_runs (tools.py lines 52 to 74). -/
def get_runs (env : StorageEnv) (project : String) : JVal × List SCall :=
  if project = "" then (plainError "Project name is required", [])
  else match env.get_runs project with
  | .error e => (errEnvelope env e, [.getRuns project])
  | .ok runs =>
      (.jobj [("success", .jbool true), ("project", .jstr project),
              ("runs", jstrArr runs), ("count", .jnum runs.length)], [.getRuns project])

/-- Model of filter_runs (tools.py lines 76 to 105): case-insensitive
substring filtering when the filter text is non-empty. -/
def filter_runs (env : StorageEnv) (project filter_text : String) : JVal × List SCall :=
  if project = "" then (plainError "Project name is required", [])
  else match env.get_runs project with
  | .error e => (errEnvelope env e, [.getRuns project])
  | .ok all_runs =>
      let filtered_runs :=
        if !(filter_text = "") then
          all_runs.filter fun r => pyInStr (pyLower filter_text) (pyLower r)
        else all_runs
      (.jobj [("success", .jbool true), ("project", .jstr project),
              ("filter", .jstr filter_text), ("runs", jstrArr filtered_runs),
              ("total_runs", .jnum all_runs.length),
              ("filtered_count", .jnum filtered_runs.length)], [.getRuns project])

/-- Model of get_run_metrics (tools.py lines 107 to 130). -/
def get_run_metrics (env : StorageEnv) (project run : String) : JVal × List SCall :=
  if project = "" || run = "" then
    (plainError "Both project and run names are required", [])
  else match env.get_metrics project run with
  | .error e => (errEnvelope env e, [.getMetrics project run])
  | .ok metrics =>
      (.jobj [("success", .jbool true), ("project", .jstr project), ("run", .jstr run),
              ("metrics", .jarr (metrics.map metricToJ)),
              ("count", .jnum metrics.length)], [.getMetrics project run])

/-- Parsing of the optional runs parameter of get_available_metrics (lines
142 to 149): try the JSON parser, fall back to comma-splitting with
whitespace stripped on a decode error, and yield the empty list when the
parameter is absent or empty. -/
def parseRunsParam (env : StorageEnv) : Option String → List String
  | none => []
  | some rs =>
      if rs = "" then []
      else match env.json_loads_list rs with
        | some l => l
        | none => (rs.splitOn ",").map (·.trim)

/-- The fallback metric-collection loop of get_available_metrics (lines 158
to 168): fetch the metrics of each run, skipping empty results, collecting
the filtered numeric columns; an exception aborts the loop and is reported
through the surrounding handler. -/
def collectMetricCols (env : StorageEnv) (project : String) (run_list : List String) :
    Except String (List String) × List SCall :=
  run_list.foldl
    (fun acc run =>
      match acc with
      | (.error e, log) => (.error e, log)
      | (.ok cols, log) =>
        match env.get_metrics project run with
        | .error e => (.error e, log ++ [.getMetrics project run])
        | .ok metrics =>
            (.ok (cols ++ (if metrics.isEmpty then [] else numericColsOf env metrics)),
             log ++ [.getMetrics project run]))
    (.ok [], [])

/-- Model of get_available_metrics (tools.py lines 132 to 182). -/
def get_available_metrics (env : StorageEnv) (project : String) (runs : Option String) :
    JVal × List SCall :=
  if project = "" then (plainError "Project name is required", [])
  else
    match (if (parseRunsParam env runs).isEmpty then
             match env.get_runs project with
             | .error e => ((.error e : Except String (List String)), [SCall.getRuns project])
             | .ok l => (.ok l, [SCall.getRuns project])
           else ((.ok (parseRunsParam env runs) : Except String (List String)), [])) with
    | (.error e, log) => (errEnvelope env e, log)
    | (.ok run_list, log) =>
      match env.ui_available_metrics with
      | some f =>
          match f project run_list with
          | .error e => (errEnvelope env e, log)
          | .ok available_metrics =>
              (.jobj [("success", .jbool true), ("project", .jstr project),
                      ("runs", jstrArr run_list),
                      ("metrics", jstrArr available_metrics),
                      ("count", .jnum available_metrics.length)], log)
      | none =>
          match collectMetricCols env project run_list with
          | (.error e, log2) => (errEnvelope env e, log ++ log2)
          | (.ok cols, log2) =>
              (.jobj [("success", .jbool true), ("project", .jstr project),
                      ("runs", jstrArr run_list),
                      ("metrics", jstrArr (pySortedSet cols)),
                      ("count", .jnum (pySortedSet cols).length)], log ++ log2)

/-- Model of load_run_data (tools.py lines 184 to 232): through the trackio
UI helper when present (a none result yields the no-data error envelope),
otherwise raw metrics from storage. -/
def load_run_data (env : StorageEnv) (project run : String) (smoothing : Bool)
    (x_axis : String) : JVal × List SCall :=
  if project = "" || run = "" then
    (plainError "Both project and run names are required", [])
  else match env.ui_load_run_data with
  | some f =>
      match f project run smoothing x_axis with
      | .error e => (errEnvelope env e, [])
      | .ok (some df) =>
          (.jobj [("success", .jbool true), ("project", .jstr project), ("run", .jstr run),
                  ("x_axis", .jstr x_axis), ("smoothing", .jbool smoothing),
                  ("data", .jarr (df.map metricToJ)), ("rows", .jnum df.length)], [])
      | .ok none => (plainError "No data found for the specified run", [])
  | none =>
      match env.get_metrics project run with
      | .error e => (errEnvelope env e, [.getMetrics project run])
      | .ok metrics =>
          (.jobj [("success", .jbool true), ("project", .jstr project), ("run", .jstr run),
                  ("x_axis", .jstr x_axis), ("smoothing", .jbool smoothing),
                  ("data", .jarr (metrics.map metricToJ)),
                  ("rows", .jnum metrics.length)], [.getMetrics project run])

/-- Count of the distinct step values of a metric list, with default 0 for
records lacking a step column (tools.py line 262). -/
def stepsCount (metrics : List Metric) : Nat :=
  ((metrics.map fun m => (m.lookup "step").getD (.num 0)).dedup).length

/-- The per-run statistics loop of get_project_summary (lines 258 to 270):
fetch the metrics of every run, building the run_stats object and the set
of numeric columns; an exception aborts the loop and is reported through
the surrounding handler. -/
def summaryLoop (env : StorageEnv) (project : String) (runs : List String) :
    Except String (List String × List (String × JVal)) × List SCall :=
  runs.foldl
    (fun acc run =>
      match acc with
      | (.error e, log) => (.error e, log)
      | (.ok (cols, stats), log) =>
        match env.get_metrics project run with
        | .error e => (.error e, log ++ [.getMetrics project run])
        | .ok metrics =>
            (.ok (cols ++ (if metrics.isEmpty then [] else numericColsOf env metrics),
                  stats ++ [(run, JVal.jobj
                    [("metric_count", .jnum metrics.length),
                     ("steps", .jnum (stepsCount metrics))])]),
             log ++ [.getMetrics project run]))
    (.ok ([], []), [])

/-- Model of get_project_summary (tools.py lines 234 to 287). -/
def get_project_summary (env : StorageEnv) (project : String) : JVal × List SCall :=
  if project = "" then (plainError "Project name is required", [])
  else match env.get_runs project with
  | .error e => (errEnvelope env e, [.getRuns project])
  | .ok runs =>
      if runs.isEmpty then
        (.jobj [("success", .jbool true), ("project", .jstr project), ("runs", .jarr []),
                ("metrics", .jarr []),
                ("summary", .jstr "No runs found in this project")], [.getRuns project])
      else
        match summaryLoop env project runs with
        | (.error e, log2) => (errEnvelope env e, SCall.getRuns project :: log2)
        | (.ok (cols, run_stats), log2) =>
            (.jobj [("success", .jbool true), ("project", .jstr project),
                    ("runs", jstrArr runs), ("run_count", .jnum runs.length),
                    ("metrics", jstrArr (pySortedSet cols)),
                    ("metric_count", .jnum cols.dedup.length),
                    ("run_stats", .jobj run_stats)], SCall.getRuns project :: log2)

/-! ## Envelope shape checkers -/

/-- Field lookup inside a JSON object. -/
def jLookup (fields : List (String × JVal)) (k : String) : Option JVal :=
  fields.lookup k

/-- The uniform envelope shape: an object whose success field is true, or
whose success field is false with a string error field. -/
def isEnvelope : JVal → Bool
  | .jobj fields =>
      match jLookup fields "success" with
      | some (.jbool true) => true
      | some (.jbool false) =>
          match jLookup fields "error" with
          | some (.jstr _) => true
          | _ => false
      | _ => false
  | _ => false

/-- An error envelope carrying exactly the given message. -/
def isErrorWith (j : JVal) (msg : String) : Bool :=
  match j with
  | .jobj fields =>
      match jLookup fields "success", jLookup fields "error" with
      | some (.jbool false), some (.jstr m) => m = msg
      | _, _ => false
  | _ => false

/-- An error envelope: success false with some string error message. -/
def isFalseEnvelope (j : JVal) : Bool :=
  match j with
  | .jobj fields =>
      match jLookup fields "success", jLookup fields "error" with
      | some (.jbool false), some (.jstr _) => true
      | _, _ => false
  | _ => false

/-- The count field of the object equals the length of its list field. -/
def countMatches (j : JVal) (countKey listKey : String) : Bool :=
  match j with
  | .jobj fields =>
      match jLookup fields countKey, jLookup fields listKey with
      | some (.jnum n), some (.jarr xs) => n = (xs.length : Int)
      | _, _ => false
  | _ => false

/-- The named field of the object is the given number. -/
def fieldIsNum (j : JVal) (k : String) (n : Int) : Bool :=
  match j with
  | .jobj fields =>
      match jLookup fields k with
      | some (.jnum m) => m = n
      | _ => false
  | _ => false

/-! ## cli.py: dispatch and exit codes -/

/-- The external outcomes the CLI depends on: whether importing the tools
module raises, whether register_trackio_tools yields an interface (false
models trackio being unavailable, reported by returning None), whether the
launched server raises, and the outcome of the basic connectivity request
of the test subcommand (error models an unreachable server, ok carries the
HTTP status code). -/
structure CliEnv where
  tools_import : Except PyExc Unit
  register_ok : Bool
  launch_exc : Option PyExc
  connect : Except String Int

/-- Model of launch_trackio_mcp_server (tools.py lines 324 to 340): when no
interface could be created it prints a failure message and returns
normally; otherwise it launches and any exception propagates. -/
def launch_trackio_mcp_server (env : CliEnv) : Except PyExc Unit :=
  if !env.register_ok then .ok ()
  else match env.launch_exc with
  | some e => .error e
  | none => .ok ()

/-- Model of the server subcommand handler (cli.py lines 72 to 93): an
ImportError from the tools module yields 1, any exception from the launch
yields 1, a normal return yields 0. -/
def run_server (env : CliEnv) : Int :=
  match env.tools_import with
  | .error _ => 1
  | .ok _ =>
      match launch_trackio_mcp_server env with
      | .error _ => 1
      | .ok _ => 0

/-- Model of the status subcommand handler (cli.py lines 96 to 173): every
probe is wrapped in its own handler, so it always returns 0. -/
def show_status : Int := 0

/-- Model of the test subcommand handler (cli.py lines 176 to 248): the
basic connectivity probe returns 1 on a connection exception; every later
probe only prints, so the handler otherwise returns 0. -/
def test_server (env : CliEnv) : Int :=
  match env.connect with
  | .error _ => 1
  | .ok _ => 0

/-- The three parsed subcommands. -/
inductive CliCmd where
  | server
  | status
  | test
deriving DecidableEq

/-- Model of the main dispatch (cli.py lines 59 to 69): none models the
absence of a subcommand, which prints help and returns 1. -/
def cliMain (cmd : Option CliCmd) (env : CliEnv) : Int :=
  match cmd with
  | some .server => run_server env
  | some .status => show_status
  | some .test => test_server env
  | none => 1

/-! ## Concrete fixtures used by witnesses and counterexamples -/

/-- A trackio UI helper returning one metric name. -/
def cUiAm : String → List String → Except String (List String) :=
  fun _ _ => .ok ["loss"]

/-- A storage environment whose every lookup raises with message boom. -/
def cStorageFail : StorageEnv :=
  { get_projects := .error "boom"
    get_runs := fun _ => .error "boom"
    get_metrics := fun _ _ => .error "boom"
    format_exc := fun m => "Traceback: " ++ m
    ui_available_metrics := none
    ui_load_run_data := none
    json_loads_list := fun _ => none
    pd_numeric_cols := fun _ => [] }

/-- A storage environment whose lookups all succeed. -/
def cStorageOk : StorageEnv :=
  { get_projects := .ok ["alpha", "beta"]
    get_runs := fun _ => .ok ["run-1", "run-2"]
    get_metrics := fun _ _ => .ok [[("step", .num 0), ("loss", .num 1)]]
    format_exc := fun m => m
    ui_available_metrics := some cUiAm
    ui_load_run_data := none
    json_loads_list := fun _ => none
    pd_numeric_cols := fun _ => ["loss", "step"] }

/-- An original import primitive that always succeeds with module 3. -/
def cImport3 : String → Except PyExc Nat :=
  fun _ => .ok 3

/-- An original import primitive succeeding only on gradio. -/
def cImportMix : String → Except PyExc Nat :=
  fun name => if name = "gradio" then .ok 3 else .error .importError

/-- A fresh process state before activation. -/
def cProc : ProcState :=
  { gradio := freshGradio 0, original_import := none, env_TRACKIO_MCP_ENABLED := none }

/-- A CLI environment where the tools module imports but trackio is
missing, so no interface is created. -/
def cCliNoTrackio : CliEnv :=
  { tools_import := .ok (), register_ok := false, launch_exc := none, connect := .ok 200 }

/-- A CLI environment where the target server is unreachable. -/
def cCliConnFail : CliEnv :=
  { tools_import := .ok (), register_ok := true, launch_exc := none,
    connect := .error "connection refused" }

/-! ## Lemmas about the patch controller -/

theorem patchGradioLaunch_idem (s : GradioState) :
    patchGradioLaunch (patchGradioLaunch s) = patchGradioLaunch s := by
  unfold patchGradioLaunch
  by_cases h : (s.gradio_patched || s.original_launch.isSome) = true
  · simp [h]
  · simp [h]

theorem patchGradioLaunch_iterate (s : GradioState) (n : Nat) :
    patchGradioLaunch^[n + 1] s = patchGradioLaunch s := by
  induction n with
  | zero => rfl
  | succ n ih =>
      rw [Function.iterate_succ_apply', ih, patchGradioLaunch_idem]

theorem patchGradioLaunch_mutations (s : GradioState) :
    (patchGradioLaunch s).mutations ≤ s.mutations + 1 := by
  unfold patchGradioLaunch
  by_cases h : (s.gradio_patched || s.original_launch.isSome) = true
  · simp [h]
  · simp [h]

/-- C1: over every sequence of calls of the patch activation on one target,
at most one method-table mutation happens, the saved original of a fresh
target is set exactly once (to the unpatched launch) and never overwritten
afterwards, and a second call after a successful first one is a no-op. -/
theorem spec_c1 (s : GradioState) (id n : Nat) :
    patchGradioLaunch (patchGradioLaunch s) = patchGradioLaunch s ∧
    (patchGradioLaunch^[n] s).mutations ≤ s.mutations + 1 ∧
    (patchGradioLaunch^[n + 1] (freshGradio id)).original_launch = some (.base id) ∧
    (patchGradioLaunch^[n + 1] (freshGradio id)).mutations = 1 ∧
    patchGradioLaunch^[n + 1] (freshGradio id) = patchGradioLaunch (freshGradio id) := by
  refine ⟨patchGradioLaunch_idem s, ?_, ?_, ?_, patchGradioLaunch_iterate _ n⟩
  · cases n with
    | zero => exact Nat.le_succ _
    | succ m =>
        rw [patchGradioLaunch_iterate s m]
        exact patchGradioLaunch_mutations s
  · rw [patchGradioLaunch_iterate]
    simp [patchGradioLaunch, freshGradio]
  · rw [patchGradioLaunch_iterate]
    simp [patchGradioLaunch, freshGradio]

/-! ## Lemmas about keyword-argument dictionaries -/

theorem kwGet_nil (k : String) : kwGet [] k = none := rfl

theorem kwGet_cons (p : String × PyVal) (l : Kwargs) (k : String) :
    kwGet (p :: l) k = if k = p.1 then some p.2 else kwGet l k := by
  rcases p with ⟨k1, v1⟩
  unfold kwGet
  by_cases h : k = k1
  · have hb : (k == k1) = true := beq_iff_eq.mpr h
    simp [List.lookup, hb, h]
  · have hb : (k == k1) = false := beq_false_of_ne h
    simp [List.lookup, hb, h]

theorem kwGet_append (l1 l2 : Kwargs) (k : String) :
    kwGet (l1 ++ l2) k =
      match kwGet l1 k with
      | some v => some v
      | none => kwGet l2 k := by
  induction l1 with
  | nil => simp [kwGet_nil]
  | cons p l ih =>
      rw [List.cons_append, kwGet_cons, kwGet_cons]
      by_cases h : k = p.1
      · simp [h]
      · simp only [h, if_false]
        exact ih

theorem kwGet_kwSet_absent (kw : Kwargs) (k : String) (v : PyVal)
    (h : kwGet kw k = none) : kwGet (kwSet kw k v) k = some v := by
  unfold kwSet
  rw [h]
  simp only [Option.isSome_none, Bool.false_eq_true, if_false]
  rw [kwGet_append, h, kwGet_cons]
  simp

theorem kwGet_kwSet_preserve (kw : Kwargs) (k k2 : String) (v u : PyVal)
    (h : kwGet kw k = some u) : kwGet (kwSet kw k2 v) k = some u := by
  unfold kwSet
  rcases hk2 : kwGet kw k2 with _ | u2
  · simp only [hk2, Option.isSome_none, Bool.false_eq_true, if_false]
    rw [kwGet_append, h]
  · simp only [hk2, Option.isSome_some, if_true]
    exact h

theorem kwGet_kwSet_other_none (kw : Kwargs) (k k2 : String) (v : PyVal)
    (hne : ¬ k = k2) (h : kwGet kw k = none) : kwGet (kwSet kw k2 v) k = none := by
  unfold kwSet
  rcases hk2 : kwGet kw k2 with _ | u2
  · simp only [hk2, Option.isSome_none, Bool.false_eq_true, if_false]
    rw [kwGet_append, h, kwGet_cons]
    simp [hne, kwGet_nil]
  · simp only [hk2, Option.isSome_some, if_true]
    exact h

theorem patched_kwargsPassed (self : BlocksSelf) (args : List PyVal) (kwargs : Kwargs)
    (origOk : Bool) :
    (patched_blocks_launch self args kwargs origOk).kwargsPassed
      = kwSet (kwSet kwargs "mcp_server" (.bool true)) "show_api" (.bool true) := by
  unfold patched_blocks_launch
  cases origOk <;> simp

theorem patched_printed_eq (self : BlocksSelf) (args : List PyVal) (kwargs : Kwargs) :
    (patched_blocks_launch self args kwargs true).printed =
      (if (kwGetD (kwSet (kwSet kwargs "mcp_server" (.bool true)) "show_api" (.bool true))
              "mcp_server" (.bool false)).truthy
          && !(kwGetD (kwSet (kwSet kwargs "mcp_server" (.bool true)) "show_api" (.bool true))
              "quiet" (.bool false)).truthy
          && hasLocalUrl self.local_url then
        match self.local_url with
        | some u =>
            ["MCP Server: " ++ rstripSlash u ++ "/gradio_api/mcp/sse",
             "MCP Schema: " ++ rstripSlash u ++ "/gradio_api/mcp/schema"]
        | none => []
      else []) := rfl

/-! ## Claim theorems about the launch wrapper and activation switches -/

/-- C2: a wrapped call passing neither of the two keywords receives both
injected defaults before delegation; a call passing an explicit value for
either keyword has that explicit value preserved unchanged in the keyword
arguments handed to the saved original. -/
theorem spec_c2 (selfA selfB selfC : BlocksSelf) (argsA argsB argsC : List PyVal)
    (kwA kwB kwC : Kwargs) (okA okB okC : Bool) (v w : PyVal)
    (h1 : kwGet kwA "mcp_server" = none) (h2 : kwGet kwA "show_api" = none)
    (h3 : kwGet kwB "mcp_server" = some v) (h4 : kwGet kwC "show_api" = some w) :
    kwGet (patched_blocks_launch selfA argsA kwA okA).kwargsPassed "mcp_server"
      = some (.bool true) ∧
    kwGet (patched_blocks_launch selfA argsA kwA okA).kwargsPassed "show_api"
      = some (.bool true) ∧
    kwGet (patched_blocks_launch selfB argsB kwB okB).kwargsPassed "mcp_server" = some v ∧
    kwGet (patched_blocks_launch selfC argsC kwC okC).kwargsPassed "show_api" = some w := by
  rw [patched_kwargsPassed, patched_kwargsPassed, patched_kwargsPassed]
  refine ⟨?_, ?_, ?_, ?_⟩
  · exact kwGet_kwSet_preserve _ _ _ _ _ (kwGet_kwSet_absent _ _ _ h1)
  · refine kwGet_kwSet_absent _ _ _ ?_
    exact kwGet_kwSet_other_none _ _ _ _ (by decide) h2
  · exact kwGet_kwSet_preserve _ _ _ _ _ (kwGet_kwSet_preserve _ _ _ _ _ h3)
  · exact kwGet_kwSet_preserve _ _ _ _ _ (kwGet_kwSet_preserve _ _ _ _ _ h4)

theorem spec_c2_witness :
    kwGet (patched_blocks_launch ⟨none⟩ [] [] true).kwargsPassed "mcp_server"
      = some (.bool true) ∧
    kwGet (patched_blocks_launch ⟨none⟩ [] [] true).kwargsPassed "show_api"
      = some (.bool true) ∧
    kwGet (patched_blocks_launch ⟨none⟩ [] [("mcp_server", .bool false)] true).kwargsPassed
      "mcp_server" = some (.bool false) ∧
    kwGet (patched_blocks_launch ⟨none⟩ [] [("show_api", .str "x")] true).kwargsPassed
      "show_api" = some (.str "x") :=
  spec_c2 ⟨none⟩ ⟨none⟩ ⟨none⟩ [] [] [] [] [("mcp_server", .bool false)]
    [("show_api", .str "x")] true true true (.bool false) (.str "x")
    rfl rfl rfl rfl

/-- C7: a successful wrapped call whose effective keyword arguments enable
the MCP server, which is not quiet, and whose self object exposes a
non-empty local_url, prints exactly the two informational URLs obtained
from local_url with trailing slashes removed. -/
theorem spec_c7 (self : BlocksSelf) (args : List PyVal) (kwargs : Kwargs) (u : String)
    (hurl : self.local_url = some u) (hne : ¬ u = "")
    (hmcp : (kwGetD (patched_blocks_launch self args kwargs true).kwargsPassed
        "mcp_server" (.bool false)).truthy = true)
    (hq : (kwGetD (patched_blocks_launch self args kwargs true).kwargsPassed
        "quiet" (.bool false)).truthy = false) :
    (patched_blocks_launch self args kwargs true).printed =
      ["MCP Server: " ++ rstripSlash u ++ "/gradio_api/mcp/sse",
       "MCP Schema: " ++ rstripSlash u ++ "/gradio_api/mcp/schema"] := by
  rw [patched_kwargsPassed] at hmcp hq
  rw [patched_printed_eq, hurl]
  simp [hmcp, hq, hasLocalUrl, hne]

theorem spec_c7_witness :
    (patched_blocks_launch ⟨some "http://localhost:7860/"⟩ [] [] true).printed =
      ["MCP Server: http://localhost:7860/gradio_api/mcp/sse",
       "MCP Schema: http://localhost:7860/gradio_api/mcp/schema"] :=
  (spec_c7 ⟨some "http://localhost:7860/"⟩ [] [] "http://localhost:7860/"
    rfl (by decide) (by decide) (by decide)).trans (by decide)

/-- C6: with the enable switch set to a falsy string, the activation entry
point leaves the whole process state unchanged: no patch of the target,
no hook installation, no environment marker. -/
theorem spec_c6 (v : String) (gradioAvailable : Bool) (builtinImport : Nat) (s : ProcState)
    (h : truthyEnable v = false) :
    patch_trackio (some v) gradioAvailable builtinImport s = s := by
  unfold patch_trackio
  simp [h]

theorem spec_c6_witness :
    patch_trackio (some "false") true 7 cProc = cProc :=
  spec_c6 "false" true 7 cProc (by decide)

/-- C9: with the enable switch unset, activation reads the default string
true, so it behaves exactly as if the switch were set to that truthy
string. -/
theorem spec_c9 (gradioAvailable : Bool) (builtinImport : Nat) (s : ProcState) :
    patch_trackio none gradioAvailable builtinImport s
      = patch_trackio (some "true") gradioAvailable builtinImport s := rfl

/-! ## Claim theorems about the import hook -/

/-- C3 counterexample: when the triggered patch attempt raises an exception
outside the two caught classes, the hooked import does not return the
result of the original primitive (the successful module load is broken),
refuting that any patch error is swallowed. -/
theorem spec_c3_cex :
    patched_import cImport3 [] (.error (.other 0)) (.ok ()) "gradio"
      ≠ cImport3 "gradio" := by
  intro h
  exact Except.noConfusion h

/-- C3 as amended: the hooked import delegates to the original primitive
first and returns its exception unchanged when it raises; when every
triggered patch attempt either succeeds or raises only ImportError or
AttributeError, those errors are swallowed and the result of the original
primitive is returned unchanged. -/
theorem spec_c3_amended (origImport : String → Except PyExc Nat) (sysModules : List String)
    (gradioAttempt uiAttempt : Except PyExc Unit) (name name2 : String) (ex : PyExc)
    (hg : catchImpAttr gradioAttempt = .ok ())
    (hu : catchImpAttr uiAttempt = .ok ())
    (horig : origImport name2 = .error ex) :
    patched_import origImport sysModules gradioAttempt uiAttempt name = origImport name ∧
    patched_import origImport sysModules gradioAttempt uiAttempt name2 = .error ex := by
  constructor
  · unfold patched_import
    rcases h : origImport name with e | r
    · rfl
    · have e1 : (if name = "gradio" || (name.startsWith "gradio."
          && sysModules.contains "gradio")
          then catchImpAttr gradioAttempt else .ok ()) = .ok () := by
        split
        · exact hg
        · rfl
      have e2 : (if name.startsWith "trackio" && sysModules.contains "trackio.ui"
          then catchImpAttr uiAttempt else .ok ()) = .ok () := by
        split
        · exact hu
        · rfl
      rw [e1, e2]
  · unfold patched_import
    rw [horig]

theorem spec_c3_amended_witness :
    patched_import cImportMix ["gradio", "trackio.ui"] (.error .importError)
      (.error .attributeError) "gradio" = cImportMix "gradio" ∧
    patched_import cImportMix ["gradio", "trackio.ui"] (.error .importError)
      (.error .attributeError) "numpy" = .error .importError :=
  spec_c3_amended cImportMix ["gradio", "trackio.ui"] (.error .importError)
    (.error .attributeError) "gradio" "numpy" .importError rfl rfl rfl

/-! ## Envelope shape lemmas for the query surface -/

theorem isEnvelope_errEnvelope (env : StorageEnv) (e : String) :
    isEnvelope (errEnvelope env e) = true := rfl

theorem isEnvelope_plainError (m : String) :
    isEnvelope (plainError m) = true := rfl

theorem get_projects_shape (env : StorageEnv) :
    isEnvelope (get_projects env).1 = true := by
  unfold get_projects
  repeat' split
  all_goals rfl

theorem get_runs_shape (env : StorageEnv) (project : String) :
    isEnvelope (get_runs env project).1 = true := by
  unfold get_runs
  repeat' split
  all_goals rfl

theorem filter_runs_shape (env : StorageEnv) (project ft : String) :
    isEnvelope (filter_runs env project ft).1 = true := by
  unfold filter_runs
  repeat' split
  all_goals rfl

theorem get_run_metrics_shape (env : StorageEnv) (project run : String) :
    isEnvelope (get_run_metrics env project run).1 = true := by
  unfold get_run_metrics
  repeat' split
  all_goals rfl

theorem get_available_metrics_shape (env : StorageEnv) (project : String)
    (runs : Option String) :
    isEnvelope (get_available_metrics env project runs).1 = true := by
  unfold get_available_metrics
  repeat' split
  all_goals rfl

theorem load_run_data_shape (env : StorageEnv) (project run : String) (sm : Bool)
    (xa : String) :
    isEnvelope (load_run_data env project run sm xa).1 = true := by
  unfold load_run_data
  repeat' split
  all_goals rfl

theorem get_project_summary_shape (env : StorageEnv) (project : String) :
    isEnvelope (get_project_summary env project).1 = true := by
  unfold get_project_summary
  repeat' split
  all_goals rfl

/-! ## Error-propagation lemmas for the query surface -/

theorem get_projects_err (env : StorageEnv) (e : String)
    (h : env.get_projects = .error e) :
    isErrorWith (get_projects env).1 e = true := by
  unfold get_projects
  rw [h]
  show decide (e = e) = true
  exact decide_eq_true rfl

theorem get_runs_err (env : StorageEnv) (project e : String)
    (hp : ¬ project = "") (h : env.get_runs project = .error e) :
    isErrorWith (get_runs env project).1 e = true := by
  unfold get_runs
  rw [if_neg hp, h]
  show decide (e = e) = true
  exact decide_eq_true rfl

theorem filter_runs_err (env : StorageEnv) (project ft e : String)
    (hp : ¬ project = "") (h : env.get_runs project = .error e) :
    isErrorWith (filter_runs env project ft).1 e = true := by
  unfold filter_runs
  rw [if_neg hp, h]
  show decide (e = e) = true
  exact decide_eq_true rfl

theorem get_run_metrics_err (env : StorageEnv) (project run e : String)
    (hp : ¬ project = "") (hr : ¬ run = "")
    (h : env.get_metrics project run = .error e) :
    isErrorWith (get_run_metrics env project run).1 e = true := by
  have hc : (decide (project = "") || decide (run = "")) = false := by simp [hp, hr]
  unfold get_run_metrics
  simp only [hc, Bool.false_eq_true, if_false]
  rw [h]
  show decide (e = e) = true
  exact decide_eq_true rfl

theorem get_available_metrics_err (env : StorageEnv) (project e : String)
    (hp : ¬ project = "") (h : env.get_runs project = .error e) :
    isErrorWith (get_available_metrics env project none).1 e = true := by
  unfold get_available_metrics
  rw [if_neg hp, h]
  show decide (e = e) = true
  exact decide_eq_true rfl

theorem load_run_data_err (env : StorageEnv) (project run e : String) (sm : Bool)
    (xa : String) (hp : ¬ project = "") (hr : ¬ run = "")
    (hui : env.ui_load_run_data = none)
    (h : env.get_metrics project run = .error e) :
    isErrorWith (load_run_data env project run sm xa).1 e = true := by
  have hc : (decide (project = "") || decide (run = "")) = false := by simp [hp, hr]
  unfold load_run_data
  simp only [hc, Bool.false_eq_true, if_false]
  rw [hui, h]
  show decide (e = e) = true
  exact decide_eq_true rfl

theorem get_project_summary_err (env : StorageEnv) (project e : String)
    (hp : ¬ project = "") (h : env.get_runs project = .error e) :
    isErrorWith (get_project_summary env project).1 e = true := by
  unfold get_project_summary
  rw [if_neg hp, h]
  show decide (e = e) = true
  exact decide_eq_true rfl

/-! ## Claim theorems about the query surface -/

/-- C4: the query functions never raise (they are total functions into
envelopes); when the storage collaborator raises, the returned envelope is
an error envelope carrying the exception message; and every envelope any of
the seven functions returns, on every input, has the uniform success or
error shape. -/
theorem spec_c4 (envF envA : StorageEnv) (project run ft xa e : String)
    (p2 r2 ft2 xa2 : String) (ro2 : Option String) (sm sm2 : Bool)
    (hp : ¬ project = "") (hr : ¬ run = "")
    (h1 : envF.get_projects = .error e)
    (h2 : envF.get_runs project = .error e)
    (h3 : envF.get_metrics project run = .error e)
    (h4 : envF.ui_load_run_data = none) :
    isErrorWith (get_projects envF).1 e = true ∧
    isErrorWith (get_runs envF project).1 e = true ∧
    isErrorWith (filter_runs envF project ft).1 e = true ∧
    isErrorWith (get_run_metrics envF project run).1 e = true ∧
    isErrorWith (get_available_metrics envF project none).1 e = true ∧
    isErrorWith (load_run_data envF project run sm xa).1 e = true ∧
    isErrorWith (get_project_summary envF project).1 e = true ∧
    isEnvelope (get_projects envA).1 = true ∧
    isEnvelope (get_runs envA p2).1 = true ∧
    isEnvelope (filter_runs envA p2 ft2).1 = true ∧
    isEnvelope (get_run_metrics envA p2 r2).1 = true ∧
    isEnvelope (get_available_metrics envA p2 ro2).1 = true ∧
    isEnvelope (load_run_data envA p2 r2 sm2 xa2).1 = true ∧
    isEnvelope (get_project_summary envA p2).1 = true :=
  ⟨get_projects_err envF e h1,
   get_runs_err envF project e hp h2,
   filter_runs_err envF project ft e hp h2,
   get_run_metrics_err envF project run e hp hr h3,
   get_available_metrics_err envF project e hp h2,
   load_run_data_err envF project run e sm xa hp hr h4 h3,
   get_project_summary_err envF project e hp h2,
   get_projects_shape envA,
   get_runs_shape envA p2,
   filter_runs_shape envA p2 ft2,
   get_run_metrics_shape envA p2 r2,
   get_available_metrics_shape envA p2 ro2,
   load_run_data_shape envA p2 r2 sm2 xa2,
   get_project_summary_shape envA p2⟩

theorem spec_c4_witness :
    isErrorWith (get_projects cStorageFail).1 "boom" = true ∧
    isErrorWith (get_runs cStorageFail "p").1 "boom" = true ∧
    isErrorWith (filter_runs cStorageFail "p" "f").1 "boom" = true ∧
    isErrorWith (get_run_metrics cStorageFail "p" "r").1 "boom" = true ∧
    isErrorWith (get_available_metrics cStorageFail "p" none).1 "boom" = true ∧
    isErrorWith (load_run_data cStorageFail "p" "r" false "step").1 "boom" = true ∧
    isErrorWith (get_project_summary cStorageFail "p").1 "boom" = true ∧
    isEnvelope (get_projects cStorageOk).1 = true ∧
    isEnvelope (get_runs cStorageOk "q").1 = true ∧
    isEnvelope (filter_runs cStorageOk "q" "g").1 = true ∧
    isEnvelope (get_run_metrics cStorageOk "q" "s").1 = true ∧
    isEnvelope (get_available_metrics cStorageOk "q" none).1 = true ∧
    isEnvelope (load_run_data cStorageOk "q" "s" true "step").1 = true ∧
    isEnvelope (get_project_summary cStorageOk "q").1 = true :=
  spec_c4 cStorageFail cStorageOk "p" "r" "f" "step" "boom" "q" "s" "g" "step" none
    false true (by decide) (by decide) rfl rfl rfl rfl

theorem get_run_metrics_empty_run (env : StorageEnv) (p : String) :
    get_run_metrics env p "" = (plainError "Both project and run names are required", []) := by
  unfold get_run_metrics
  rw [if_pos (show (decide (p = "") || decide (("" : String) = "")) = true by simp)]

theorem load_run_data_empty_run (env : StorageEnv) (p : String) (sm : Bool) (xa : String) :
    load_run_data env p "" sm xa
      = (plainError "Both project and run names are required", []) := by
  unfold load_run_data
  rw [if_pos (show (decide (p = "") || decide (("" : String) = "")) = true by simp)]

/-- C5: every query function with a required string parameter, called with
that parameter empty, returns an error envelope and performs no storage
lookup call at all. -/
theorem spec_c5 (env : StorageEnv) (p r ft xa : String) (ro : Option String) (sm : Bool) :
    (isFalseEnvelope (get_runs env "").1 = true ∧ (get_runs env "").2 = []) ∧
    (isFalseEnvelope (filter_runs env "" ft).1 = true ∧ (filter_runs env "" ft).2 = []) ∧
    (isFalseEnvelope (get_run_metrics env "" r).1 = true ∧
      (get_run_metrics env "" r).2 = []) ∧
    (isFalseEnvelope (get_run_metrics env p "").1 = true ∧
      (get_run_metrics env p "").2 = []) ∧
    (isFalseEnvelope (get_available_metrics env "" ro).1 = true ∧
      (get_available_metrics env "" ro).2 = []) ∧
    (isFalseEnvelope (load_run_data env "" r sm xa).1 = true ∧
      (load_run_data env "" r sm xa).2 = []) ∧
    (isFalseEnvelope (load_run_data env p "" sm xa).1 = true ∧
      (load_run_data env p "" sm xa).2 = []) ∧
    (isFalseEnvelope (get_project_summary env "").1 = true ∧
      (get_project_summary env "").2 = []) := by
  refine ⟨⟨rfl, rfl⟩, ⟨rfl, rfl⟩, ⟨rfl, rfl⟩, ⟨?_, ?_⟩, ⟨rfl, rfl⟩, ⟨rfl, rfl⟩,
    ⟨?_, ?_⟩, ⟨rfl, rfl⟩⟩
  · rw [get_run_metrics_empty_run]
    rfl
  · rw [get_run_metrics_empty_run]
  · rw [load_run_data_empty_run]
    rfl
  · rw [load_run_data_empty_run]

/-- C10: on success, the count field of get_projects, get_runs,
get_run_metrics and get_available_metrics equals the length of the returned
list, and for filter_runs the total_runs field equals the length of the
unfiltered run list while filtered_count equals the length of the returned
filtered list. -/
theorem spec_c10 (env : StorageEnv) (project run ft : String) (ps rs ams : List String)
    (ms : List Metric) (uf : String → List String → Except String (List String))
    (hp : ¬ project = "") (hr : ¬ run = "")
    (h1 : env.get_projects = .ok ps)
    (h2 : env.get_runs project = .ok rs)
    (h3 : env.get_metrics project run = .ok ms)
    (h4 : env.ui_available_metrics = some uf)
    (h5 : uf project rs = .ok ams) :
    countMatches (get_projects env).1 "count" "projects" = true ∧
    countMatches (get_runs env project).1 "count" "runs" = true ∧
    countMatches (get_run_metrics env project run).1 "count" "metrics" = true ∧
    countMatches (get_available_metrics env project none).1 "count" "metrics" = true ∧
    fieldIsNum (filter_runs env project ft).1 "total_runs" rs.length = true ∧
    countMatches (filter_runs env project ft).1 "filtered_count" "runs" = true := by
  have hc : (decide (project = "") || decide (run = "")) = false := by simp [hp, hr]
  refine ⟨?_, ?_, ?_, ?_, ?_, ?_⟩
  · unfold get_projects
    rw [h1]
    apply decide_eq_true
    simp
  · unfold get_runs
    rw [if_neg hp, h2]
    apply decide_eq_true
    simp
  · unfold get_run_metrics
    simp only [hc, Bool.false_eq_true, if_false]
    rw [h3]
    apply decide_eq_true
    simp
  · simp only [get_available_metrics, if_neg hp, parseRunsParam, List.isEmpty_nil, if_true,
      h2, h4, h5]
    apply decide_eq_true
    simp
  · unfold filter_runs
    rw [if_neg hp, h2]
    apply decide_eq_true
    simp
  · unfold filter_runs
    rw [if_neg hp, h2]
    apply decide_eq_true
    simp

theorem spec_c10_witness :
    countMatches (get_projects cStorageOk).1 "count" "projects" = true ∧
    countMatches (get_runs cStorageOk "p").1 "count" "runs" = true ∧
    countMatches (get_run_metrics cStorageOk "p" "r").1 "count" "metrics" = true ∧
    countMatches (get_available_metrics cStorageOk "p" none).1 "count" "metrics" = true ∧
    fieldIsNum (filter_runs cStorageOk "p" "1").1 "total_runs"
      (["run-1", "run-2"] : List String).length = true ∧
    countMatches (filter_runs cStorageOk "p" "1").1 "filtered_count" "runs" = true :=
  spec_c10 cStorageOk "p" "r" "1" ["alpha", "beta"] ["run-1", "run-2"] ["loss"]
    [[("step", .num 0), ("loss", .num 1)]] cUiAm (by decide) (by decide)
    rfl rfl rfl rfl rfl

/-! ## Claim theorems about the CLI -/

/-- C8: evaluation of the CLI model.  The dispatch returns 1 with no
subcommand, the status subcommand returns 0, and the test subcommand
returns 1 exactly when the target is unreachable; but when the tools
module loads fine and trackio is missing (so no interface is created and
the server never starts), the server subcommand returns 0, although its printed
output reports a failure - contradicting the documented exit-code contract
of 1 on failure. -/
theorem spec_c8_eval :
    cliMain (some .server) cCliNoTrackio = 0 ∧
    cliMain none cCliNoTrackio = 1 ∧
    cliMain (some .status) cCliNoTrackio = 0 ∧
    cliMain (some .test) cCliConnFail = 1 ∧
    cliMain (some .test) cCliNoTrackio = 0 :=
  ⟨rfl, rfl, rfl, rfl, rfl⟩

end TrackioMcp
